import Mathlib

/-!
Shallow embedding of the beads_viewer core: the hybrid-search scorer and its
weight vectors (package `search`), the insights generator (package `analysis`),
and the semantic list filter (package `ui`).

Go `float64` values are modelled as exact rationals (`ℚ`); Go maps that are
iterated and then sorted are modelled as association lists.  The `search`
package implementation is not part of the source tree (only its tests are), so
its definitions are modelled from the specification, as marked in their doc
comments.  The `analysis` and `ui` definitions are direct translations of
`pkg/analysis/insights.go` and of the semantic filter source file.
-/

namespace search

/-- Modelled from the spec: the weight vector of the hybrid scorer
(§4.3, six enumerated components). -/
structure Weights where
  textRelevance : ℚ
  pageRank : ℚ
  status : ℚ
  impact : ℚ
  priority : ℚ
  recency : ℚ
deriving DecidableEq

/-- Modelled from the spec: the sum of the six weight components
(the Go helper `Weights.sum` used by the tests). -/
def Weights.sum (w : Weights) : ℚ :=
  w.textRelevance + w.pageRank + w.status + w.impact + w.priority + w.recency

/-- The tolerance `1e-6` used by weight validation. -/
def weightTolerance : ℚ := 1 / 1000000

/-- Modelled from the spec: `Weights.Validate` — all components must be
nonnegative and the sum must be within `1e-6` of 1 (§4.3); errors are returned
as `some message`, success as `none` (the low-text warning is only logged and
is not an error). -/
def Weights.validate (w : Weights) : Option String :=
  if w.textRelevance < 0 ∨ w.pageRank < 0 ∨ w.status < 0 ∨ w.impact < 0 ∨
      w.priority < 0 ∨ w.recency < 0 then
    some "weights must be non-negative"
  else if ¬ (|w.sum - 1| ≤ weightTolerance) then
    some "weights must sum to 1"
  else
    none

/-- Modelled from the spec: `normalize_status` (§4.3). -/
def normalizeStatus (s : String) : ℚ :=
  if s = "open" then 1
  else if s = "in_progress" then 9 / 10
  else if s = "blocked" then 3 / 10
  else if s = "closed" then 1 / 20
  else 1 / 2

/-- Modelled from the spec: `normalize_priority` (§4.3), priority `p ∈ {0..4}`
maps to `(4 − p) / 4`, out-of-range to `0.5`. -/
def normalizePriority (p : ℤ) : ℚ :=
  if 0 ≤ p ∧ p ≤ 4 then ((4 - p : ℤ) : ℚ) / 4 else 1 / 2

/-- Modelled from the spec: `normalize_impact(blocker_count, max)` (§4.3). -/
def normalizeImpact (blockerCount maxBlockerCount : ℤ) : ℚ :=
  if maxBlockerCount ≤ 0 then 0
  else min 1 (max 0 ((blockerCount : ℚ) / (maxBlockerCount : ℚ)))

/-- Modelled from the spec: `normalize_recency` (§4.3) — exponential decay with
half-life 30 days, clamped to `[0,1]`, unknown timestamps map to `0.5`.  The
timestamp is modelled as the age in whole days (`none` = unknown), so the decay
is day-granular: `(1/2) ^ (age / 30)`. -/
def normalizeRecency : Option ℕ → ℚ
  | none => 1 / 2
  | some ageDays => (1 / 2 : ℚ) ^ (ageDays / 30)

/-- Per-issue metrics surfaced by the metrics cache (§4.2), as in the
`IssueMetrics` struct used by the tests; `updatedAt` is the age in days. -/
structure IssueMetrics where
  issueID : String
  pageRank : ℚ
  status : String
  priority : ℤ
  blockerCount : ℤ
  updatedAt : Option ℕ
deriving DecidableEq

/-- The metrics-cache view consumed by the scorer (§4.2): constant-time
per-issue lookup plus the impact denominator. -/
structure MetricsCache where
  get : String → Option IssueMetrics
  maxBlockerCount : ℤ

/-- The scorer's per-candidate result: the fused final score and the recorded
component scores (`ComponentScores` map, modelled as an association list). -/
structure ScoreResult where
  finalScore : ℚ
  componentScores : List (String × ℚ)
deriving DecidableEq

/-- The hybrid scorer: a weight vector plus the metrics cache it reads. -/
structure HybridScorer where
  weights : Weights
  cache : MetricsCache

/-- Modelled from the spec: `HybridScorer.Score` (§4.3).  For candidate `i`
with caller text score `t`: `w_text·t + w_pr·pr(i) + w_status·status(i) +
w_impact·impact(i) + w_priority·priority(i) + w_recency·recency(i)`; if the
metrics cache lacks `i` the scorer degrades to the text score alone and
records no component scores. -/
def HybridScorer.Score (s : HybridScorer) (id : String) (textScore : ℚ) :
    ScoreResult :=
  match s.cache.get id with
  | none => { finalScore := textScore, componentScores := [] }
  | some m =>
    let statusScore := normalizeStatus m.status
    let impactScore := normalizeImpact m.blockerCount s.cache.maxBlockerCount
    let priorityScore := normalizePriority m.priority
    let recencyScore := normalizeRecency m.updatedAt
    { finalScore :=
        s.weights.textRelevance * textScore + s.weights.pageRank * m.pageRank +
        s.weights.status * statusScore + s.weights.impact * impactScore +
        s.weights.priority * priorityScore + s.weights.recency * recencyScore
      componentScores :=
        [("text", textScore), ("pagerank", m.pageRank),
         ("status", statusScore), ("impact", impactScore),
         ("priority", priorityScore), ("recency", recencyScore)] }

/-- Whitespace tokenisation used for query shape: the non-empty fields of the
character sequence split at spaces (Go `strings.Fields`), as character
lists. -/
def charTokens (cs : List Char) : List (List Char) :=
  (cs.splitOn ' ').filter (fun t => t ≠ [])

/-- The whitespace-separated tokens of a string. -/
def tokens (s : String) : List (List Char) := charTokens s.toList

/-- Number of whitespace-separated tokens of a query. -/
def tokenCount (s : String) : ℕ := (tokens s).length

/-- Modelled from the spec: the short-query token threshold (default 2). -/
def shortQueryTokenThreshold : ℕ := 2

/-- Modelled from the spec: `short_query_min_text_weight` (default 0.5). -/
def shortQueryMinTextWeight : ℚ := 1 / 2

/-- The renormalisation factor applied to the five non-text components by the
short-query adjustment: the mass left for them after the text weight is
raised, divided by their current mass. -/
def adjustScale (w : Weights) : ℚ :=
  (1 - max w.textRelevance shortQueryMinTextWeight) /
    (w.pageRank + w.status + w.impact + w.priority + w.recency)

/-- Modelled from the spec: `adjust_weights_for_query` (§4.3).  For a short
query (at most `shortQueryTokenThreshold` tokens) raise `text_relevance` to at
least `shortQueryMinTextWeight` and renormalise to sum 1 by scaling the five
remaining components — in particular `pagerank` — proportionally; long queries
return the weights unchanged. -/
def AdjustWeightsForQuery (w : Weights) (query : String) : Weights :=
  if tokenCount query ≤ shortQueryTokenThreshold then
    if w.pageRank + w.status + w.impact + w.priority + w.recency = 0 then
      { textRelevance := 1, pageRank := 0, status := 0, impact := 0,
        priority := 0, recency := 0 }
    else
      { textRelevance := max w.textRelevance shortQueryMinTextWeight
        pageRank := w.pageRank * adjustScale w
        status := w.status * adjustScale w
        impact := w.impact * adjustScale w
        priority := w.priority * adjustScale w
        recency := w.recency * adjustScale w }
  else w

/-- Token containment used by the lexical booster: the lower-cased query
occurs as a whole whitespace-separated token of the lower-cased document. -/
def containsToken (doc query : String) : Bool :=
  (charTokens (doc.toList.map Char.toLower)).contains
    (query.toList.map Char.toLower)

/-- Modelled from the spec: `short_query_lexical_boost` (§4.4) — a fixed
positive boost when the query is short and the document contains it as a
whole token (case-insensitive); otherwise 0. -/
def ShortQueryLexicalBoost (query doc : String) : ℚ :=
  if tokenCount query ≤ shortQueryTokenThreshold ∧ containsToken doc query then
    1 / 4
  else 0

end search

/-- The ordering used by every ranked output: value strictly descending, ties
broken by key ascending (translation of the Go `sort.Slice` comparators in
`getTopItems` and in the semantic filter). -/
def byValDesc {α β γ : Type} [LinearOrder β] [LinearOrder γ]
    (val : α → β) (key : α → γ) (a b : α) : Prop :=
  val b < val a ∨ (val a = val b ∧ key a ≤ key b)

instance byValDesc.instDecidableRel {α β γ : Type} [LinearOrder β]
    [LinearOrder γ] (val : α → β) (key : α → γ) :
    DecidableRel (byValDesc val key) := fun a b =>
  inferInstanceAs (Decidable (val b < val a ∨ (val a = val b ∧ key a ≤ key b)))

theorem byValDesc_total {α β γ : Type} [LinearOrder β] [LinearOrder γ]
    (val : α → β) (key : α → γ) (a b : α) :
    byValDesc val key a b ∨ byValDesc val key b a := by
  rcases lt_trichotomy (val a) (val b) with h | h | h
  · exact Or.inr (Or.inl h)
  · rcases le_total (key a) (key b) with hk | hk
    · exact Or.inl (Or.inr ⟨h, hk⟩)
    · exact Or.inr (Or.inr ⟨h.symm, hk⟩)
  · exact Or.inl (Or.inl h)

theorem byValDesc_trans {α β γ : Type} [LinearOrder β] [LinearOrder γ]
    (val : α → β) (key : α → γ) (a b c : α)
    (hab : byValDesc val key a b) (hbc : byValDesc val key b c) :
    byValDesc val key a c := by
  rcases hab with h1 | ⟨h1, hk1⟩ <;> rcases hbc with h2 | ⟨h2, hk2⟩
  · exact Or.inl (h2.trans h1)
  · exact Or.inl (h2 ▸ h1)
  · exact Or.inl (h1 ▸ h2)
  · exact Or.inr ⟨h1.trans h2, hk1.trans hk2⟩

namespace analysis

/-- A single entry of an insight list (`InsightItem` in
`pkg/analysis/insights.go`). -/
structure InsightItem where
  ID : String
  Value : ℚ
deriving DecidableEq

/-- The comparator of `getTopItems`: value descending, key ascending. -/
def pairRel : (String × ℚ) → (String × ℚ) → Prop :=
  byValDesc Prod.snd Prod.fst

/-- The comparator of `getTopItemsInt`: value descending, key ascending. -/
def pairRelInt : (String × ℤ) → (String × ℤ) → Prop :=
  byValDesc Prod.snd Prod.fst

instance : DecidableRel pairRel := byValDesc.instDecidableRel _ _

instance : DecidableRel pairRelInt := byValDesc.instDecidableRel _ _

instance : IsTotal (String × ℚ) pairRel := ⟨byValDesc_total _ _⟩

instance : IsTrans (String × ℚ) pairRel := ⟨byValDesc_trans _ _⟩

instance : IsTotal (String × ℤ) pairRelInt := ⟨byValDesc_total _ _⟩

instance : IsTrans (String × ℤ) pairRelInt := ⟨byValDesc_trans _ _⟩

/-- `getTopItems` from `pkg/analysis/insights.go`: sort the map's entries by
value descending (ties by key ascending) and keep the first `limit`. -/
def getTopItems (m : List (String × ℚ)) (limit : ℤ) : List InsightItem :=
  ((List.insertionSort pairRel m).take limit.toNat).map fun p =>
    { ID := p.1, Value := p.2 }

/-- `getTopItemsInt` from `pkg/analysis/insights.go`: same as `getTopItems`
for integer-valued metrics, converting the value to float at the end. -/
def getTopItemsInt (m : List (String × ℤ)) (limit : ℤ) : List InsightItem :=
  ((List.insertionSort pairRelInt m).take limit.toNat).map fun p =>
    { ID := p.1, Value := (p.2 : ℚ) }

/-- `limitStrings` from `pkg/analysis/insights.go`. -/
def limitStrings (s : List String) (limit : ℤ) : List String :=
  if limit ≤ 0 ∨ (s.length : ℤ) ≤ limit then s else s.take limit.toNat

/-- The analyser outputs read by `GenerateInsights` — the thread-safe copies
returned by the `GraphStats` getters, with maps as association lists. -/
structure GraphStats where
  pageRank : List (String × ℚ)
  betweenness : List (String × ℚ)
  criticalPath : List (String × ℚ)
  eigenvector : List (String × ℚ)
  hubs : List (String × ℚ)
  authorities : List (String × ℚ)
  coreNum : List (String × ℤ)
  artPts : List String
  slack : List (String × ℚ)
  cycles : List (List String)
  density : ℚ

/-- The `Insights` struct of `pkg/analysis/insights.go` (the back-pointer to
the stats is omitted). -/
structure Insights where
  Bottlenecks : List InsightItem
  Keystones : List InsightItem
  Influencers : List InsightItem
  Hubs : List InsightItem
  Authorities : List InsightItem
  Cores : List InsightItem
  Articulation : List String
  Slack : List InsightItem
  Orphans : List String
  Cycles : List (List String)
  ClusterDensity : ℚ

/-- `GenerateInsights` from `pkg/analysis/insights.go`.  When `limit ≤ 0` the
Go code replaces it by `len(pageRank)`; the composite literal it returns never
assigns the `Orphans` field, which therefore stays at its zero value. -/
def GraphStats.GenerateInsights (s : GraphStats) (limit : ℤ) : Insights :=
  let limit : ℤ := if limit ≤ 0 then (s.pageRank.length : ℤ) else limit
  { Bottlenecks := getTopItems s.betweenness limit
    Keystones := getTopItems s.criticalPath limit
    Influencers := getTopItems s.eigenvector limit
    Hubs := getTopItems s.hubs limit
    Authorities := getTopItems s.authorities limit
    Cores := getTopItemsInt s.coreNum limit
    Articulation := limitStrings s.artPts limit
    Slack := getTopItems s.slack limit
    Orphans := []
    Cycles := s.cycles
    ClusterDensity := s.density }

/-- A completed analysis populates every per-node map over the same node set
as the PageRank map; this predicate captures the consequences used below: no
per-node list is larger than the PageRank map. -/
def GraphStats.Completed (s : GraphStats) : Prop :=
  s.betweenness.length ≤ s.pageRank.length ∧
  s.criticalPath.length ≤ s.pageRank.length ∧
  s.eigenvector.length ≤ s.pageRank.length ∧
  s.hubs.length ≤ s.pageRank.length ∧
  s.authorities.length ≤ s.pageRank.length ∧
  s.coreNum.length ≤ s.pageRank.length ∧
  s.artPts.length ≤ s.pageRank.length ∧
  s.slack.length ≤ s.pageRank.length

end analysis

namespace ui

/-- A vector-index entry as read by the filter (`entry.Vector`). -/
structure VectorEntry where
  Vector : List ℚ

/-- The rank records returned by the filter (`list.Rank`; the matched-rune
positions are not produced by the semantic path and are omitted). -/
structure Rank where
  Index : ℕ
deriving DecidableEq

/-- The per-item record built inside `Filter` (the local `scored` struct). -/
structure Scored where
  index : ℕ
  id : String
  score : ℚ
deriving DecidableEq

/-- `dotFloat32` from the semantic-search source: dot product that returns 0
whenever the two vectors have different lengths or are empty. -/
def dotFloat32 (a b : List ℚ) : ℚ :=
  if a.length ≠ b.length ∨ a.length = 0 then 0
  else ((a.zip b).map fun p => p.1 * p.2).sum

/-- The `semanticSearchSnapshot` read by `Filter`: the readiness flag, the
nilable index and embedder, and the stored ID mapping.  The index is modelled
by its `Get` lookup and the embedder by its `Embed` call (`none` = error). -/
structure Snapshot where
  Ready : Bool
  Index : Option (String → Option VectorEntry)
  Embedder : Option (List String → Option (List (List ℚ)))
  IDs : List String

/-- The comparator of the filter's `sort.Slice`: score descending, ties by
issue ID ascending. -/
def scoredRel : Scored → Scored → Prop := byValDesc Scored.score Scored.id

instance : DecidableRel scoredRel := byValDesc.instDecidableRel _ _

instance : IsTotal Scored scoredRel := ⟨byValDesc_total _ _⟩

instance : IsTrans Scored scoredRel := ⟨byValDesc_trans _ _⟩

/-- The scoring loop of `Filter`: each stored ID is paired with its list
position and scored by dot product against the query vector; IDs absent from
the index get the sentinel score −2 so they sink to the bottom. -/
def scoreIDs (index : String → Option VectorEntry) (q : List ℚ)
    (ids : List String) : List Scored :=
  ids.enum.map fun p =>
    match index p.2 with
    | none => { index := p.1, id := p.2, score := -2 }
    | some e => { index := p.1, id := p.2, score := dotFloat32 q e.Vector }

/-- The sort step of `Filter` (`sort.Slice` under `scoredRel`). -/
def sortScoredItems (l : List Scored) : List Scored :=
  List.insertionSort scoredRel l

/-- The hard result cap of the semantic filter (`limit := 75`). -/
def filterLimit : ℕ := 75

/-- `SemanticSearch.Filter` from the semantic-search source.  The fallback
fuzzy filter (`list.DefaultFilter`, an external library function) is passed in
as `dflt`.  An empty term, a not-ready snapshot, a mismatched ID mapping, or a
failed or non-singleton embedding all fall back; otherwise all stored IDs are
scored, sorted by score descending (ties by ID ascending), truncated to 75,
and returned as ranks. -/
def Filter (dflt : String → List String → List Rank) (snap : Snapshot)
    (term : String) (targets : List String) : List Rank :=
  if term = "" then dflt term targets
  else
    match snap.Ready, snap.Index, snap.Embedder with
    | true, some index, some embed =>
      if snap.IDs.length ≠ targets.length then dflt term targets
      else
        match embed [term] with
        | some [q] =>
          ((sortScoredItems (scoreIDs index q snap.IDs)).take filterLimit).map
            fun it => { Index := it.index }
        | _ => dflt term targets
    | _, _, _ => dflt term targets

end ui

/-!  Concrete fixtures used to instantiate the theorems below. -/

/-- The cached metrics of issue `A` in the scorer fixture (the values of
`TestHybridScorer_Score`). -/
def fxMetrics : search.IssueMetrics :=
  { issueID := "A", pageRank := 4 / 5, status := "open", priority := 1,
    blockerCount := 2, updatedAt := some 0 }

/-- A one-issue metrics cache with impact denominator 4. -/
def fxCache : search.MetricsCache :=
  { get := fun id => if id = "A" then some fxMetrics else none
    maxBlockerCount := 4 }

/-- The validated weight vector of `TestHybridScorer_Score`. -/
def fxWeights : search.Weights :=
  { textRelevance := 1 / 2, pageRank := 1 / 10, status := 1 / 10,
    impact := 1 / 10, priority := 1 / 10, recency := 1 / 10 }

/-- A scorer over the one-issue cache. -/
def fxScorer : search.HybridScorer := { weights := fxWeights, cache := fxCache }

/-- A cache that contains no issue at all. -/
def fxEmptyCache : search.MetricsCache :=
  { get := fun _ => none, maxBlockerCount := 0 }

/-- A text-only scorer over the empty cache
(`TestHybridScorer_Score_TextOnlyOnMissingMetrics`). -/
def fxEmptyScorer : search.HybridScorer :=
  { weights := { textRelevance := 1, pageRank := 0, status := 0, impact := 0,
                 priority := 0, recency := 0 }
    cache := fxEmptyCache }

/-- A weight vector with nonnegative components summing to 1 whose text weight
is below the short-query minimum. -/
def fxAdjWeights : search.Weights :=
  { textRelevance := 1 / 4, pageRank := 7 / 20, status := 1 / 10,
    impact := 1 / 10, priority := 1 / 10, recency := 1 / 10 }

/-- Completed one-node stats: every per-node map carries the single node
`a`. -/
def fxStats : analysis.GraphStats :=
  { pageRank := [("a", 1 / 2)], betweenness := [("a", 1)],
    criticalPath := [("a", 0)], eigenvector := [("a", 1)], hubs := [("a", 1)],
    authorities := [("a", 1)], coreNum := [("a", 1)], artPts := ["a"],
    slack := [("a", 0)], cycles := [], density := 0 }

/-- Stats carrying two cycle representatives (and a single node otherwise). -/
def fxCycleStats : analysis.GraphStats :=
  { pageRank := [("a", 1)], betweenness := [], criticalPath := [],
    eigenvector := [], hubs := [], authorities := [], coreNum := [],
    artPts := [], slack := [], cycles := [["a", "b"], ["b", "c"]],
    density := 0 }

/-- An index lookup that knows no document. -/
def fxIndexFun : String → Option ui.VectorEntry := fun _ => none

/-- An embedder that returns the one-dimensional vector `[1]` for any batch. -/
def fxEmbedFun : List String → Option (List (List ℚ)) := fun _ => some [[1]]

/-- A ready semantic snapshot with three stored IDs. -/
def fxSnap : ui.Snapshot :=
  { Ready := true, Index := some fxIndexFun, Embedder := some fxEmbedFun,
    IDs := ["a", "b", "c"] }

/-- A fallback filter standing in for `list.DefaultFilter`. -/
def fxDflt : String → List String → List ui.Rank := fun _ _ => []

/-- Claim C1: for every candidate issue present in the metrics cache and every
validated weight vector, `HybridScorer.Score` returns the weighted sum of the
caller text score and the five normalised cached metrics. -/
theorem c1_hybrid_score_is_weighted_sum (s : search.HybridScorer) (id : String)
    (t : ℚ) (m : search.IssueMetrics) (_hw : s.weights.validate = none)
    (hm : s.cache.get id = some m) :
    (s.Score id t).finalScore =
      s.weights.textRelevance * t +
      s.weights.pageRank * m.pageRank +
      s.weights.status * search.normalizeStatus m.status +
      s.weights.impact *
        search.normalizeImpact m.blockerCount s.cache.maxBlockerCount +
      s.weights.priority * search.normalizePriority m.priority +
      s.weights.recency * search.normalizeRecency m.updatedAt := by
  unfold search.HybridScorer.Score
  rw [hm]

/-- Witness for C1 at the fixture scorer and issue `A`. -/
theorem c1_hybrid_score_is_weighted_sum_witness :
    (fxScorer.Score "A" (3 / 5)).finalScore =
      fxScorer.weights.textRelevance * (3 / 5) +
      fxScorer.weights.pageRank * fxMetrics.pageRank +
      fxScorer.weights.status * search.normalizeStatus fxMetrics.status +
      fxScorer.weights.impact *
        search.normalizeImpact fxMetrics.blockerCount
          fxScorer.cache.maxBlockerCount +
      fxScorer.weights.priority * search.normalizePriority fxMetrics.priority +
      fxScorer.weights.recency * search.normalizeRecency fxMetrics.updatedAt :=
  c1_hybrid_score_is_weighted_sum fxScorer "A" (3 / 5) fxMetrics
    (by norm_num [fxScorer, fxWeights, search.Weights.validate,
      search.Weights.sum, search.weightTolerance]) rfl

/-- Claim C2: when the metrics cache does not contain the issue, the scorer
returns exactly the text score and an empty component-score map. -/
theorem c2_missing_metrics_text_only (s : search.HybridScorer) (id : String)
    (t : ℚ) (hm : s.cache.get id = none) :
    (s.Score id t).finalScore = t ∧ (s.Score id t).componentScores = [] := by
  unfold search.HybridScorer.Score
  rw [hm]
  exact ⟨rfl, rfl⟩

/-- Witness for C2 at the empty-cache scorer. -/
theorem c2_missing_metrics_text_only_witness :
    (fxEmptyScorer.Score "A" (21 / 50)).finalScore = 21 / 50 ∧
    (fxEmptyScorer.Score "A" (21 / 50)).componentScores = [] :=
  c2_missing_metrics_text_only fxEmptyScorer "A" (21 / 50) rfl

/-- Claim C6 (code evaluation): `GenerateInsights` never assigns the
`Orphans` field, so the orphans list of every generated insights value is
empty — even when the stats describe nodes without dependencies. -/
theorem c6_orphans_always_empty (s : analysis.GraphStats) (limit : ℤ) :
    (s.GenerateInsights limit).Orphans = [] := rfl

/-- Claim C10: `dotFloat32` is total — mismatched lengths or empty vectors
yield 0 rather than a fault. -/
theorem c10_dotFloat32_total (a b : List ℚ)
    (h : a.length ≠ b.length ∨ a.length = 0) : ui.dotFloat32 a b = 0 := by
  unfold ui.dotFloat32
  rw [if_pos h]

/-- Witness for C10 on a dimension mismatch. -/
theorem c10_dotFloat32_total_witness : ui.dotFloat32 [1, 2] [3] = 0 :=
  c10_dotFloat32_total [1, 2] [3] (by decide)

/-- Claim C4: a weight vector validates exactly when all six components are
nonnegative and the sum is within `1e-6` of 1. -/
theorem c4_validate_iff_nonneg_and_sum (w : search.Weights) :
    w.validate = none ↔
      (0 ≤ w.textRelevance ∧ 0 ≤ w.pageRank ∧ 0 ≤ w.status ∧ 0 ≤ w.impact ∧
        0 ≤ w.priority ∧ 0 ≤ w.recency ∧ |w.sum - 1| ≤ 1 / 1000000) := by
  unfold search.Weights.validate search.weightTolerance
  split_ifs with h1 h2
  · refine iff_of_false (by simp) (fun hc => ?_)
    obtain ⟨c1, c2, c3, c4, c5, c6, -⟩ := hc
    rcases h1 with h | h | h | h | h | h <;> linarith
  · push_neg at h1
    exact iff_of_true rfl
      ⟨h1.1, h1.2.1, h1.2.2.1, h1.2.2.2.1, h1.2.2.2.2.1, h1.2.2.2.2.2, h2⟩
  · exact iff_of_false (by simp)
      (fun hc => absurd hc.2.2.2.2.2.2 h2)

/-- Claim C8: the short-query lexical boost is strictly positive exactly when
the query is short (at most the token threshold) and occurs as a whole,
case-insensitively matched token of the document; it only ever takes the
values 0 and the fixed boost, so in every other case it is exactly 0. -/
theorem c8_lexical_boost_pos_iff (q d : String) :
    (0 < search.ShortQueryLexicalBoost q d ↔
      (search.tokenCount q ≤ search.shortQueryTokenThreshold ∧
        search.containsToken d q = true)) ∧
    (search.ShortQueryLexicalBoost q d = 0 ∨
      search.ShortQueryLexicalBoost q d = 1 / 4) := by
  unfold search.ShortQueryLexicalBoost
  split_ifs with h
  · exact ⟨iff_of_true (by norm_num) ⟨h.1, h.2⟩, Or.inr rfl⟩
  · refine ⟨iff_of_false (by norm_num) (fun hc => h ⟨hc.1, hc.2⟩), Or.inl rfl⟩

/-- Claim C3: every ranked insights list and the semantic filter's ranking are
ordered by value strictly descending with ties broken by ID ascending: for
float-valued metric maps (`getTopItems`), for integer-valued metric maps
(`getTopItemsInt`, used for cores), and for the sorted scored items the
semantic filter ranks. -/
theorem c3_rankings_sorted_desc_then_id :
    (∀ (m : List (String × ℚ)) (limit : ℤ),
      (analysis.getTopItems m limit).Pairwise
        (fun a b => b.Value < a.Value ∨ (a.Value = b.Value ∧ a.ID ≤ b.ID))) ∧
    (∀ (m : List (String × ℤ)) (limit : ℤ),
      (analysis.getTopItemsInt m limit).Pairwise
        (fun a b => b.Value < a.Value ∨ (a.Value = b.Value ∧ a.ID ≤ b.ID))) ∧
    (∀ (index : String → Option ui.VectorEntry) (q : List ℚ)
        (ids : List String),
      (ui.sortScoredItems (ui.scoreIDs index q ids)).Pairwise
        (fun a b => b.score < a.score ∨ (a.score = b.score ∧ a.id ≤ b.id))) := by
  refine ⟨fun m limit => ?_, fun m limit => ?_, fun index q ids => ?_⟩
  · have hs : (List.insertionSort analysis.pairRel m).Pairwise analysis.pairRel :=
      List.sorted_insertionSort analysis.pairRel m
    have ht :
        ((List.insertionSort analysis.pairRel m).take limit.toNat).Pairwise
          analysis.pairRel :=
      List.Pairwise.sublist (List.take_sublist _ _) hs
    exact List.pairwise_map.mpr (ht.imp (fun h => h))
  · have hs :
        (List.insertionSort analysis.pairRelInt m).Pairwise analysis.pairRelInt :=
      List.sorted_insertionSort analysis.pairRelInt m
    have ht :
        ((List.insertionSort analysis.pairRelInt m).take limit.toNat).Pairwise
          analysis.pairRelInt :=
      List.Pairwise.sublist (List.take_sublist _ _) hs
    refine List.pairwise_map.mpr (ht.imp ?_)
    intro a b h
    rcases h with h | ⟨h1, h2⟩
    · exact Or.inl (show ((b.2 : ℚ)) < ((a.2 : ℚ)) by exact_mod_cast h)
    · exact Or.inr ⟨show ((a.2 : ℚ)) = ((b.2 : ℚ)) by exact_mod_cast h1, h2⟩
  · have hs :
        (List.insertionSort ui.scoredRel (ui.scoreIDs index q ids)).Pairwise
          ui.scoredRel :=
      List.sorted_insertionSort ui.scoredRel (ui.scoreIDs index q ids)
    exact hs.imp (fun h => h)

theorem getTopItems_length (m : List (String × ℚ)) (limit : ℤ) :
    (analysis.getTopItems m limit).length = min limit.toNat m.length := by
  unfold analysis.getTopItems
  rw [List.length_map, List.length_take, List.length_insertionSort]

theorem getTopItemsInt_length (m : List (String × ℤ)) (limit : ℤ) :
    (analysis.getTopItemsInt m limit).length = min limit.toNat m.length := by
  unfold analysis.getTopItemsInt
  rw [List.length_map, List.length_take, List.length_insertionSort]

theorem limitStrings_length_le (l : List String) (limit : ℤ) (h : 0 < limit) :
    ((analysis.limitStrings l limit).length : ℤ) ≤ limit := by
  unfold analysis.limitStrings
  split_ifs with hif
  · rcases hif with h0 | hle
    · omega
    · exact hle
  · rw [List.length_take]
    omega

theorem limitStrings_all (l : List String) (limit : ℤ)
    (h : (l.length : ℤ) ≤ limit) : analysis.limitStrings l limit = l := by
  unfold analysis.limitStrings
  rw [if_pos (Or.inr h)]

theorem generateInsights_bottlenecks (s : analysis.GraphStats) (limit : ℤ) :
    (s.GenerateInsights limit).Bottlenecks =
      analysis.getTopItems s.betweenness
        (if limit ≤ 0 then (s.pageRank.length : ℤ) else limit) := rfl

theorem generateInsights_keystones (s : analysis.GraphStats) (limit : ℤ) :
    (s.GenerateInsights limit).Keystones =
      analysis.getTopItems s.criticalPath
        (if limit ≤ 0 then (s.pageRank.length : ℤ) else limit) := rfl

theorem generateInsights_influencers (s : analysis.GraphStats) (limit : ℤ) :
    (s.GenerateInsights limit).Influencers =
      analysis.getTopItems s.eigenvector
        (if limit ≤ 0 then (s.pageRank.length : ℤ) else limit) := rfl

theorem generateInsights_hubs (s : analysis.GraphStats) (limit : ℤ) :
    (s.GenerateInsights limit).Hubs =
      analysis.getTopItems s.hubs
        (if limit ≤ 0 then (s.pageRank.length : ℤ) else limit) := rfl

theorem generateInsights_authorities (s : analysis.GraphStats) (limit : ℤ) :
    (s.GenerateInsights limit).Authorities =
      analysis.getTopItems s.authorities
        (if limit ≤ 0 then (s.pageRank.length : ℤ) else limit) := rfl

theorem generateInsights_cores (s : analysis.GraphStats) (limit : ℤ) :
    (s.GenerateInsights limit).Cores =
      analysis.getTopItemsInt s.coreNum
        (if limit ≤ 0 then (s.pageRank.length : ℤ) else limit) := rfl

theorem generateInsights_articulation (s : analysis.GraphStats) (limit : ℤ) :
    (s.GenerateInsights limit).Articulation =
      analysis.limitStrings s.artPts
        (if limit ≤ 0 then (s.pageRank.length : ℤ) else limit) := rfl

theorem generateInsights_slack (s : analysis.GraphStats) (limit : ℤ) :
    (s.GenerateInsights limit).Slack =
      analysis.getTopItems s.slack
        (if limit ≤ 0 then (s.pageRank.length : ℤ) else limit) := rfl

/-- Counterexample to claim C7 as stated: with limit 1, the generated
insights still carry both cycle representatives — the `cycles` output list is
not truncated to the limit. -/
theorem c7_cex_cycles_not_truncated :
    (0 : ℤ) < 1 ∧
      ¬ (((fxCycleStats.GenerateInsights 1).Cycles.length : ℤ) ≤ 1) := by
  constructor
  · decide
  · decide

/-- Claim C7 (amended): for completed stats, every ranked list and the
articulation list is truncated to at most `limit` entries when `limit > 0`,
and all their entries are retained when `limit ≤ 0`; the cycles list is
passed through untruncated in both cases. -/
theorem c7_limit_truncation (s : analysis.GraphStats) (limit : ℤ)
    (hc : s.Completed) :
    (0 < limit →
      ((s.GenerateInsights limit).Bottlenecks.length : ℤ) ≤ limit ∧
      ((s.GenerateInsights limit).Keystones.length : ℤ) ≤ limit ∧
      ((s.GenerateInsights limit).Influencers.length : ℤ) ≤ limit ∧
      ((s.GenerateInsights limit).Hubs.length : ℤ) ≤ limit ∧
      ((s.GenerateInsights limit).Authorities.length : ℤ) ≤ limit ∧
      ((s.GenerateInsights limit).Cores.length : ℤ) ≤ limit ∧
      ((s.GenerateInsights limit).Articulation.length : ℤ) ≤ limit ∧
      ((s.GenerateInsights limit).Slack.length : ℤ) ≤ limit) ∧
    (limit ≤ 0 →
      ((s.GenerateInsights limit).Bottlenecks.length = s.betweenness.length ∧
       (s.GenerateInsights limit).Keystones.length = s.criticalPath.length ∧
       (s.GenerateInsights limit).Influencers.length = s.eigenvector.length ∧
       (s.GenerateInsights limit).Hubs.length = s.hubs.length ∧
       (s.GenerateInsights limit).Authorities.length = s.authorities.length ∧
       (s.GenerateInsights limit).Cores.length = s.coreNum.length ∧
       (s.GenerateInsights limit).Articulation = s.artPts ∧
       (s.GenerateInsights limit).Slack.length = s.slack.length)) ∧
    (s.GenerateInsights limit).Cycles = s.cycles := by
  obtain ⟨hb, hk, he, hh, ha, hcn, hart, hsl⟩ := hc
  refine ⟨fun hpos => ?_, fun hnonpos => ?_, rfl⟩
  · have hif : (if limit ≤ 0 then (s.pageRank.length : ℤ) else limit) = limit :=
      if_neg (not_le.mpr hpos)
    refine ⟨?_, ?_, ?_, ?_, ?_, ?_, ?_, ?_⟩
    · rw [generateInsights_bottlenecks, hif, getTopItems_length]; omega
    · rw [generateInsights_keystones, hif, getTopItems_length]; omega
    · rw [generateInsights_influencers, hif, getTopItems_length]; omega
    · rw [generateInsights_hubs, hif, getTopItems_length]; omega
    · rw [generateInsights_authorities, hif, getTopItems_length]; omega
    · rw [generateInsights_cores, hif, getTopItemsInt_length]; omega
    · rw [generateInsights_articulation, hif]
      exact limitStrings_length_le _ _ hpos
    · rw [generateInsights_slack, hif, getTopItems_length]; omega
  · have hif : (if limit ≤ 0 then (s.pageRank.length : ℤ) else limit) =
        (s.pageRank.length : ℤ) := if_pos hnonpos
    refine ⟨?_, ?_, ?_, ?_, ?_, ?_, ?_, ?_⟩
    · rw [generateInsights_bottlenecks, hif, getTopItems_length]; omega
    · rw [generateInsights_keystones, hif, getTopItems_length]; omega
    · rw [generateInsights_influencers, hif, getTopItems_length]; omega
    · rw [generateInsights_hubs, hif, getTopItems_length]; omega
    · rw [generateInsights_authorities, hif, getTopItems_length]; omega
    · rw [generateInsights_cores, hif, getTopItemsInt_length]; omega
    · rw [generateInsights_articulation, hif]
      exact limitStrings_all _ _ (by exact_mod_cast hart)
    · rw [generateInsights_slack, hif, getTopItems_length]; omega

/-- Witness for the amended C7 at the completed one-node stats, at a positive
and at a non-positive limit. -/
theorem c7_limit_truncation_witness :
    ((fxStats.GenerateInsights 1).Bottlenecks.length : ℤ) ≤ 1 ∧
    (fxStats.GenerateInsights 0).Articulation = fxStats.artPts :=
  ⟨((c7_limit_truncation fxStats 1
      (by unfold analysis.GraphStats.Completed; decide)).1 (by decide)).1,
   ((c7_limit_truncation fxStats 0
      (by unfold analysis.GraphStats.Completed; decide)).2.1
        (by decide)).2.2.2.2.2.2.1⟩

/-- Claim C9: on the semantic path (non-empty term, ready snapshot, matching
ID mapping, successful single-vector embedding) the filter returns exactly
`min targets 75` ranks — targets beyond the 75 highest-scoring are dropped. -/
theorem c9_filter_caps_at_75 (dflt : String → List String → List ui.Rank)
    (snap : ui.Snapshot) (term : String) (targets : List String)
    (index : String → Option ui.VectorEntry)
    (embed : List String → Option (List (List ℚ))) (q : List ℚ)
    (hterm : term ≠ "")
    (hready : snap.Ready = true)
    (hindex : snap.Index = some index)
    (hembed : snap.Embedder = some embed)
    (hlen : snap.IDs.length = targets.length)
    (hq : embed [term] = some [q]) :
    (ui.Filter dflt snap term targets).length =
      min targets.length ui.filterLimit := by
  obtain ⟨R, I, E, ids⟩ := snap
  dsimp only at hready hindex hembed hlen
  subst hready hindex hembed
  unfold ui.Filter
  rw [if_neg hterm]
  dsimp only
  rw [if_neg (by omega : ¬ ids.length ≠ targets.length), hq]
  dsimp only
  rw [List.length_map, List.length_take]
  unfold ui.sortScoredItems
  rw [List.length_insertionSort]
  unfold ui.scoreIDs
  rw [List.length_map, List.enum_length, hlen, Nat.min_comm]

/-- Witness for C9 at a ready three-ID snapshot. -/
theorem c9_filter_caps_at_75_witness :
    (ui.Filter fxDflt fxSnap "x" ["t", "u", "v"]).length =
      min (["t", "u", "v"] : List String).length ui.filterLimit :=
  c9_filter_caps_at_75 fxDflt fxSnap "x" ["t", "u", "v"] fxIndexFun fxEmbedFun
    [1] (by decide) rfl rfl rfl rfl rfl

/-- Claim C5: for a weight vector (nonnegative components summing to 1) and a
short query, the adjusted weights have text relevance at least the short-query
minimum, a pagerank weight no larger than before, and still sum to 1 within
`1e-6`. -/
theorem c5_short_query_adjustment (w : search.Weights) (q : String)
    (hshort : search.tokenCount q ≤ search.shortQueryTokenThreshold)
    (_ht : 0 ≤ w.textRelevance) (hp : 0 ≤ w.pageRank) (hs : 0 ≤ w.status)
    (hi : 0 ≤ w.impact) (hpr : 0 ≤ w.priority) (hr : 0 ≤ w.recency)
    (hsum : w.sum = 1) :
    search.shortQueryMinTextWeight ≤
      (search.AdjustWeightsForQuery w q).textRelevance ∧
    (search.AdjustWeightsForQuery w q).pageRank ≤ w.pageRank ∧
    |(search.AdjustWeightsForQuery w q).sum - 1| ≤ 1 / 1000000 := by
  have hsum' : w.textRelevance +
      (w.pageRank + w.status + w.impact + w.priority + w.recency) = 1 := by
    unfold search.Weights.sum at hsum
    linarith
  unfold search.AdjustWeightsForQuery
  rw [if_pos hshort]
  by_cases h0 : w.pageRank + w.status + w.impact + w.priority + w.recency = 0
  · rw [if_pos h0]
    refine ⟨?_, ?_, ?_⟩
    · show search.shortQueryMinTextWeight ≤ (1 : ℚ)
      unfold search.shortQueryMinTextWeight
      norm_num
    · show (0 : ℚ) ≤ w.pageRank
      exact hp
    · unfold search.Weights.sum
      norm_num
  · rw [if_neg h0]
    have hrest0 :
        0 ≤ w.pageRank + w.status + w.impact + w.priority + w.recency := by
      linarith
    have hrest :
        0 < w.pageRank + w.status + w.impact + w.priority + w.recency :=
      lt_of_le_of_ne hrest0 (Ne.symm h0)
    have htext1 : w.textRelevance ≤ 1 := by linarith
    have hmax1 : max w.textRelevance search.shortQueryMinTextWeight ≤ 1 := by
      rw [max_le_iff]
      refine ⟨htext1, ?_⟩
      unfold search.shortQueryMinTextWeight
      norm_num
    have hscale1 : search.adjustScale w ≤ 1 := by
      unfold search.adjustScale
      rw [div_le_one hrest]
      have hle : w.textRelevance ≤
          max w.textRelevance search.shortQueryMinTextWeight :=
        le_max_left _ _
      linarith
    have hkey : (w.pageRank + w.status + w.impact + w.priority + w.recency) *
        search.adjustScale w =
        1 - max w.textRelevance search.shortQueryMinTextWeight := by
      unfold search.adjustScale
      rw [mul_comm, div_mul_cancel₀ _ h0]
    refine ⟨?_, ?_, ?_⟩
    · show search.shortQueryMinTextWeight ≤
        max w.textRelevance search.shortQueryMinTextWeight
      exact le_max_right _ _
    · show w.pageRank * search.adjustScale w ≤ w.pageRank
      exact mul_le_of_le_one_right hp hscale1
    · unfold search.Weights.sum
      dsimp only
      have hval : max w.textRelevance search.shortQueryMinTextWeight +
          w.pageRank * search.adjustScale w +
          w.status * search.adjustScale w +
          w.impact * search.adjustScale w +
          w.priority * search.adjustScale w +
          w.recency * search.adjustScale w - 1 = 0 := by
        linear_combination hkey
      rw [hval]
      norm_num

/-- Witness for C5 at a summing-to-1 vector with low text weight and the
one-token query of the short-query test. -/
theorem c5_short_query_adjustment_witness :
    search.shortQueryMinTextWeight ≤
      (search.AdjustWeightsForQuery fxAdjWeights "benchmarks").textRelevance ∧
    (search.AdjustWeightsForQuery fxAdjWeights "benchmarks").pageRank ≤
      fxAdjWeights.pageRank ∧
    |(search.AdjustWeightsForQuery fxAdjWeights "benchmarks").sum - 1| ≤
      1 / 1000000 :=
  c5_short_query_adjustment fxAdjWeights "benchmarks" (by decide)
    (by norm_num [fxAdjWeights]) (by norm_num [fxAdjWeights])
    (by norm_num [fxAdjWeights]) (by norm_num [fxAdjWeights])
    (by norm_num [fxAdjWeights]) (by norm_num [fxAdjWeights])
    (by norm_num [fxAdjWeights, search.Weights.sum])
